import Mathlib

/-
Verification of the CRT-DASH data pipeline (crtdash.py / crtdash1.py, whose
fetch_data and process_data are identical).  The two functions are embedded
shallowly: machine floats are modelled as rationals, pandas cells as
Option-valued lookups, st.error / st.warning calls as an emitted signal list,
and a raised exception as the error branch of Except.
-/

set_option autoImplicit false

namespace CrtDash

/-- A JSON-like scalar value as it appears in a ThingSpeak feed entry:
a string, a number, or null. -/
inductive Value where
  | vstr (s : String)
  | vnum (q : ℚ)
  | vnull
deriving DecidableEq, Repr

/-- One raw feed entry: a mapping from field names to values, as decoded from
the JSON body.  pd.DataFrame(feeds) (line 28) makes one row per entry; a key
the entry lacks is a NaN cell, modelled by a failing lookup. -/
abbrev RawFeedEntry := List (String × Value)

/-- The argument of process_data: a JSON object that may or may not carry a
feeds key holding the list of entries (data.get at line 23). -/
structure Payload where
  feeds : Option (List RawFeedEntry)
deriving DecidableEq, Repr

/-- Numeric value of a list of decimal digit characters. -/
def natOfDigits (cs : List Char) : ℕ :=
  cs.foldl (fun a c => a * 10 + (c.toNat - 48)) 0

/-- The whitespace characters Python strips around a float literal. -/
def isPySpace (c : Char) : Bool :=
  c == ' ' || c == '\t' || c == '\n' || c == '\r' || c == '\x0b' || c == '\x0c'

/-- Strip leading and trailing whitespace from a character list. -/
def trimChars (cs : List Char) : List Char :=
  ((cs.dropWhile isPySpace).reverse.dropWhile isPySpace).reverse

/-- The rational with the given sign whose digits are the concatenated
integral and fractional digits, scaled by ten to the exponent minus the
fractional length: the exact value of a decimal float literal. -/
def ratOfParts (neg : Bool) (digits : List Char) (fracLen : ℕ) (ex : ℤ) : ℚ :=
  let mag : ℤ := (if neg then -1 else 1) * (natOfDigits digits : ℤ)
  let scale : ℤ := ex - (fracLen : ℤ)
  if 0 ≤ scale then mkRat (mag * (10 : ℤ) ^ scale.toNat) 1
  else mkRat mag ((10 : ℕ) ^ (-scale).toNat)

/-- Model of float-literal parsing as performed per cell by pd.to_numeric
(line 44): optional surrounding whitespace, an optional sign, decimal digits
with an optional fractional part, and an optional decimal exponent.  Values
are exact rationals; a string that fits no such literal parses to none.
(The special literals inf and nan and digit-group underscores are outside
the model; neither occurs in the feed format.) -/
def parseFloat (s : String) : Option ℚ :=
  let cs := trimChars s.toList
  let signRest : Bool × List Char :=
    match cs with
    | '+' :: r => (false, r)
    | '-' :: r => (true, r)
    | _ => (false, cs)
  let ip := signRest.2.takeWhile Char.isDigit
  let afterInt := signRest.2.dropWhile Char.isDigit
  let fracRest : List Char × List Char :=
    match afterInt with
    | '.' :: r => (r.takeWhile Char.isDigit, r.dropWhile Char.isDigit)
    | _ => ([], afterInt)
  if ip = [] ∧ fracRest.1 = [] then none
  else
    match fracRest.2 with
    | [] => some (ratOfParts signRest.1 (ip ++ fracRest.1) fracRest.1.length 0)
    | e :: r =>
      if e = 'e' ∨ e = 'E' then
        let esignRest : Bool × List Char :=
          match r with
          | '+' :: r2 => (false, r2)
          | '-' :: r2 => (true, r2)
          | _ => (false, r)
        let ed := esignRest.2.takeWhile Char.isDigit
        let trailing := esignRest.2.dropWhile Char.isDigit
        if ed = [] ∨ trailing ≠ [] then none
        else
          some (ratOfParts signRest.1 (ip ++ fracRest.1) fracRest.1.length
            ((if esignRest.1 then -1 else 1) * (natOfDigits ed : ℤ)))
      else none

/-- A parsed point in time.  civil keeps the wall-clock fields of an ISO-8601
string; epochNanos models the pandas reading of a bare number as an offset
from the epoch. -/
inductive Timestamp where
  | civil (year month day hour minute second : ℕ)
  | epochNanos (q : ℚ)
deriving DecidableEq, Repr

/-- An optional trailing timezone designator: empty, Z, or a signed HH:MM
offset. -/
def validTZ : List Char → Bool
  | [] => true
  | ['Z'] => true
  | [c, h1, h2, ':', m1, m2] =>
      (c == '+' || c == '-') && ([h1, h2, m1, m2].all Char.isDigit)
  | _ => false

/-- Model of timestamp parsing for the ISO-8601-like strings the feed service
emits, as performed per cell by pd.to_datetime (line 32): a YYYY-MM-DD date,
optionally followed by a T-or-space-separated HH:MM:SS time and a timezone
designator.  An offset is validated but the wall-clock fields are kept as
written (no claim depends on timezone normalisation).  Anything else parses
to none. -/
def parseISO8601 (s : String) : Option Timestamp :=
  match s.toList with
  | y1 :: y2 :: y3 :: y4 :: '-' :: m1 :: m2 :: '-' :: d1 :: d2 :: rest =>
    if ([y1, y2, y3, y4, m1, m2, d1, d2].all Char.isDigit) then
      if 1 ≤ natOfDigits [m1, m2] ∧ natOfDigits [m1, m2] ≤ 12 ∧
         1 ≤ natOfDigits [d1, d2] ∧ natOfDigits [d1, d2] ≤ 31 then
        match rest with
        | [] =>
          some (Timestamp.civil (natOfDigits [y1, y2, y3, y4])
            (natOfDigits [m1, m2]) (natOfDigits [d1, d2]) 0 0 0)
        | sep :: h1 :: h2 :: ':' :: n1 :: n2 :: ':' :: s1 :: s2 :: tz =>
          if (sep == 'T' || sep == ' ') && ([h1, h2, n1, n2, s1, s2].all Char.isDigit) then
            if natOfDigits [h1, h2] ≤ 23 ∧ natOfDigits [n1, n2] ≤ 59 ∧
               natOfDigits [s1, s2] ≤ 59 ∧ validTZ tz = true then
              some (Timestamp.civil (natOfDigits [y1, y2, y3, y4])
                (natOfDigits [m1, m2]) (natOfDigits [d1, d2])
                (natOfDigits [h1, h2]) (natOfDigits [n1, n2]) (natOfDigits [s1, s2]))
            else none
          else none
        | _ => none
      else none
    else none
  | _ => none

/-- pd.to_numeric with errors-coerce applied to one cell (line 44): an absent
cell (NaN) and null stay missing, a number passes through, a string is parsed
as a float literal; every failure becomes missing, never zero and never an
error. -/
def to_numeric : Option Value → Option ℚ
  | none => none
  | some Value.vnull => none
  | some (Value.vnum q) => some q
  | some (Value.vstr s) => parseFloat s

/-- pd.to_datetime with errors-coerce applied to one cell (line 32): an
absent cell and null become NaT (none), a number is read as an epoch offset,
a string is parsed as an ISO-8601-like timestamp; every failure becomes NaT,
never an error. -/
def to_datetime : Option Value → Option Timestamp
  | none => none
  | some Value.vnull => none
  | some (Value.vnum q) => some (Timestamp.epochNanos q)
  | some (Value.vstr s) => parseISO8601 s

/-- The feeds list process_data works on: data.get with default empty list
(line 23). -/
def feedsOf (data : Payload) : List RawFeedEntry :=
  data.feeds.getD []

/-- A column name exists in pd.DataFrame(feeds) iff some entry carries the
key (lines 28, 31, 43). -/
def hasColumn (feeds : List RawFeedEntry) (k : String) : Bool :=
  feeds.any (fun e => (e.lookup k).isSome)

/-- The six numeric channel names (line 41). -/
def numeric_fields : List String :=
  ["field1", "field2", "field3", "field4", "field5", "field6"]

/-- The created_at column after coercion (line 32), one cell per entry. -/
def createdAtColumn (feeds : List RawFeedEntry) : List (Option Timestamp) :=
  feeds.map (fun e => to_datetime (e.lookup "created_at"))

/-- The user-visible signals process_data emits via st.error and st.warning,
in source order: lines 25, 34, 37, 46, 51. -/
inductive Signal where
  | noFeeds
  | allTimestampsInvalid
  | noCreatedAt
  | missingField (name : String)
  | allNumericEmpty
deriving DecidableEq, Repr

/-- One row of the normalized table: the coerced created_at and six channel
columns, plus the entry fields outside those seven columns, which the frame
keeps unchanged. -/
structure Row where
  created_at : Option Timestamp
  field1 : Option ℚ
  field2 : Option ℚ
  field3 : Option ℚ
  field4 : Option ℚ
  field5 : Option ℚ
  field6 : Option ℚ
  others : List (String × Value)
deriving DecidableEq, Repr

/-- The six channel cells of a row, in field order. -/
def channelVals (r : Row) : List (Option ℚ) :=
  [r.field1, r.field2, r.field3, r.field4, r.field5, r.field6]

/-- The seven column names process_data coerces. -/
def specialKeys : List String :=
  "created_at" :: numeric_fields

/-- The row an entry contributes once every channel column exists: each
coerced cell is the coerced lookup of its key (a key the entry lacks is the
NaN cell of the frame and coerces to missing). -/
def mkRow (e : RawFeedEntry) : Row :=
  { created_at := to_datetime (e.lookup "created_at")
    field1 := to_numeric (e.lookup "field1")
    field2 := to_numeric (e.lookup "field2")
    field3 := to_numeric (e.lookup "field3")
    field4 := to_numeric (e.lookup "field4")
    field5 := to_numeric (e.lookup "field5")
    field6 := to_numeric (e.lookup "field6")
    others := e.filter (fun kv => !(specialKeys.contains kv.1)) }

/-- The drop test of line 49 with how-all: a row goes iff all six channel
cells are missing. -/
def allChannelsMissing (r : Row) : Bool :=
  (channelVals r).all Option.isNone

abbrev Table := List Row

/-- The channel names entirely absent from the frame, in field order: exactly
the subset labels DataFrame.dropna (line 49) cannot find among the columns. -/
def missingChannels (feeds : List RawFeedEntry) : List String :=
  numeric_fields.filter (fun f => !hasColumn feeds f)

/-- The rows surviving the dropna of line 49 when every channel column
exists. -/
def keptRows (feeds : List RawFeedEntry) : Table :=
  (feeds.map mkRow).filter (fun r => !allChannelsMissing r)

/-- A pandas KeyError as raised by DataFrame.dropna when subset labels are
absent from the columns; it carries the missing labels. -/
abbrev KeyErr := List String

/-- Shallow embedding of process_data (lines 22-53).  The first component is
the list of emitted signals; the second is either the normalized table or the
KeyError that DataFrame.dropna (line 49) raises when some channel name never
became a column, since pandas rejects subset labels that are not columns.
The st.warning calls of line 46 run inside the field loop, before that raise,
so the missing-field signals are emitted in both outcomes. -/
def process_data (data : Payload) : List Signal × Except KeyErr Table :=
  if (feedsOf data).isEmpty then
    ([Signal.noFeeds], Except.ok [])
  else
    if hasColumn (feedsOf data) "created_at" then
      if (createdAtColumn (feedsOf data)).all Option.isNone then
        ([Signal.allTimestampsInvalid], Except.ok [])
      else
        if (missingChannels (feedsOf data)).isEmpty then
          if (keptRows (feedsOf data)).isEmpty then
            ([Signal.allNumericEmpty], Except.ok (keptRows (feedsOf data)))
          else
            ([], Except.ok (keptRows (feedsOf data)))
        else
          ((missingChannels (feedsOf data)).map Signal.missingField,
            Except.error (missingChannels (feedsOf data)))
    else
      ([Signal.noCreatedAt], Except.ok [])

/-- A JSON value, for the body of the fetch_data response. -/
inductive Json where
  | null
  | jstr (s : String)
  | jnum (q : ℚ)
  | jarr (xs : List Json)
  | jobj (kvs : List (String × Json))
deriving Repr

/-- First value under a key in a JSON object; none when the key is absent or
the value is not an object (dict.get). -/
def Json.getKey : Json → String → Option Json
  | Json.jobj kvs, k => kvs.lookup k
  | _, _ => none

/-- Python truthiness of a dict.get result, as tested at line 13. -/
def truthy : Option Json → Bool
  | none => false
  | some Json.null => false
  | some (Json.jstr s) => !s.isEmpty
  | some (Json.jnum q) => decide (q ≠ 0)
  | some (Json.jarr xs) => !xs.isEmpty
  | some (Json.jobj kvs) => !kvs.isEmpty

/-- A transport-level failure raised by requests.get (connection failure or
timeout). -/
inductive NetErr where
  | connectionError
  | timeout
deriving DecidableEq, Repr

/-- What the environment presents to one fetch_data call: either a transport
error raised by requests.get, or an HTTP status code with the parsed JSON
body. -/
abbrev HttpOutcome := Except NetErr (ℕ × Json)

/-- Shallow embedding of fetch_data (lines 8-19).  requests.get (line 10) is
not wrapped in any handler, so a transport error propagates to the caller; a
200 response whose body has a truthy feeds key returns the whole decoded
body (line 14); every handled failure returns the empty object (line 19). -/
def fetch_data (resp : HttpOutcome) : Except NetErr Json :=
  match resp with
  | Except.error e => Except.error e
  | Except.ok (status, data) =>
    if status = 200 then
      if truthy (Json.getKey data "feeds") then Except.ok data
      else Except.ok (Json.jobj [])
    else Except.ok (Json.jobj [])

/-- A batch of one entry carrying every column: a parseable timestamp, a
parsed zero in channel 1, and unparseable or null cells in the other five. -/
def entryAll : RawFeedEntry :=
  [("created_at", Value.vstr "2024-01-01T00:00:00Z"), ("field1", Value.vstr "0"),
   ("field2", Value.vstr ""), ("field3", Value.vnull), ("field4", Value.vstr "x"),
   ("field5", Value.vstr ""), ("field6", Value.vnull)]

def payloadAll : Payload := ⟨some [entryAll]⟩

/-- A batch of one entry carrying only created_at and field1, so channels
field2..field6 never become columns. -/
def entryPartial : RawFeedEntry :=
  [("created_at", Value.vstr "2024-01-01T00:00:00Z"), ("field1", Value.vstr "5")]

def payloadPartial : Payload := ⟨some [entryPartial]⟩

/-- A batch of one entry with an unparseable timestamp but parseable values
in all six channels. -/
def entryBadTs : RawFeedEntry :=
  [("created_at", Value.vstr "not-a-date"), ("field1", Value.vstr "1"),
   ("field2", Value.vstr "2"), ("field3", Value.vstr "3"), ("field4", Value.vstr "4"),
   ("field5", Value.vstr "5"), ("field6", Value.vstr "6")]

def payloadBadTs : Payload := ⟨some [entryBadTs]⟩

/-- A batch of one entry with no created_at key at all. -/
def entryNoTs : RawFeedEntry := [("field1", Value.vstr "5")]

def payloadNoTs : Payload := ⟨some [entryNoTs]⟩

/-- A sample feeds sequence and response body for the fetch claims. -/
def feedsSample : List Json :=
  [Json.jobj [("created_at", Json.jstr "2024-01-01T00:00:00Z"), ("field1", Json.jstr "5")]]

def bodySample : Json := Json.jobj [("feeds", Json.jarr feedsSample)]

/-- Claim C2: the spec and the code's own warning path treat an entirely
absent channel as non-fatal, but once the warnings are emitted the dropna of
line 49 raises a KeyError naming the absent channels, because pandas rejects
subset labels that are not columns; the batch is lost instead of yielding a
table of the present channels. -/
theorem c2_absent_channel_raises :
    process_data payloadPartial =
      ([Signal.missingField "field2", Signal.missingField "field3",
        Signal.missingField "field4", Signal.missingField "field5",
        Signal.missingField "field6"],
       Except.error ["field2", "field3", "field4", "field5", "field6"]) := by
  rfl

/-- Claim C4: when every entry's created_at cell fails to coerce, the whole
batch is invalidated and process_data returns an empty table, no matter what
the numeric channels hold. -/
theorem c4_all_timestamps_invalid (p : Payload)
    (h : ∀ e ∈ feedsOf p, to_datetime (e.lookup "created_at") = none) :
    (process_data p).2 = Except.ok [] := by
  have hall : (createdAtColumn (feedsOf p)).all Option.isNone = true := by
    rw [createdAtColumn, List.all_eq_true]
    intro x hx
    simp only [List.mem_map] at hx
    obtain ⟨e, he, rfl⟩ := hx
    simp [h e he]
  unfold process_data
  split_ifs <;> simp_all

/-- Witness for C4 at a concrete batch whose single timestamp is
unparseable while field1 is numeric. -/
theorem c4_witness :
    (∀ e ∈ feedsOf payloadBadTs, to_datetime (e.lookup "created_at") = none) ∧
    (process_data payloadBadTs).2 = Except.ok [] :=
  ⟨by decide, c4_all_timestamps_invalid payloadBadTs (by decide)⟩

/-- Claim C5: a non-empty batch none of whose entries carries a created_at
key has no created_at column, and process_data returns an empty table. -/
theorem c5_no_created_at_column (p : Payload) (es : List RawFeedEntry)
    (h1 : p.feeds = some es) (h2 : es ≠ [])
    (h3 : ∀ e ∈ es, e.lookup "created_at" = none) :
    process_data p = ([Signal.noCreatedAt], Except.ok []) := by
  have hf : feedsOf p = es := by simp [feedsOf, h1]
  have hcol : hasColumn (feedsOf p) "created_at" = false := by
    rw [hf, hasColumn, List.any_eq_false]
    intro e he
    simp [h3 e he]
  have hne : (feedsOf p).isEmpty = false := by
    rw [hf]
    simpa [List.isEmpty_iff] using h2
  simp [process_data, hne, hcol]

/-- Witness for C5 at a concrete one-entry batch without created_at. -/
theorem c5_witness :
    payloadNoTs.feeds = some [entryNoTs] ∧ [entryNoTs] ≠ [] ∧
    (∀ e ∈ [entryNoTs], e.lookup "created_at" = none) ∧
    process_data payloadNoTs = ([Signal.noCreatedAt], Except.ok []) :=
  ⟨rfl, by decide, by decide,
    c5_no_created_at_column payloadNoTs [entryNoTs] rfl (by decide) (by decide)⟩

/-- Claim C9: process_data is a pure function of the payload; the embedding
threads no state, so two runs on equal raw inputs return equal signal lists
and equal tables. -/
theorem c9_deterministic (p q : Payload) (h : p = q) :
    process_data p = process_data q := by
  rw [h]

/-- Witness for C9 at a concrete payload. -/
theorem c9_witness : process_data payloadAll = process_data payloadAll :=
  c9_deterministic payloadAll payloadAll rfl

/-- Claim C10: a payload without a feeds key, in particular the empty object
every handled fetch_data failure returns, is treated exactly like a feeds key
holding an empty sequence: the empty table comes back and nothing is
raised. -/
theorem c10_missing_feeds_key (p : Payload) (h : p.feeds = none) :
    process_data p = ([Signal.noFeeds], Except.ok []) ∧
    process_data p = process_data ⟨some []⟩ := by
  constructor
  · simp [process_data, feedsOf, h]
  · simp [process_data, feedsOf, h]

/-- Witness for C10 at the payload with no feeds key. -/
theorem c10_witness :
    process_data ⟨none⟩ = ([Signal.noFeeds], Except.ok []) ∧
    process_data ⟨none⟩ = process_data ⟨some []⟩ :=
  c10_missing_feeds_key ⟨none⟩ rfl

/-- Claim C6 counterexample: on a transport error the caller does not
receive an empty result — fetch_data has no handler around requests.get, so
the error propagates unchanged, and it is not the empty-object result the
claim promises. -/
theorem c6_counterexample :
    fetch_data (Except.error NetErr.connectionError) =
      Except.error NetErr.connectionError ∧
    (Except.error NetErr.connectionError : Except NetErr Json) ≠
      Except.ok (Json.jobj []) :=
  ⟨rfl, fun h => Except.noConfusion h⟩

/-- Claim C6 as amended: a non-200 HTTP status yields the empty object with
no exception, while a transport error is not caught inside fetch_data and
propagates to the caller. -/
theorem c6_non200_empty_transport_raises (st : ℕ) (body : Json) (e : NetErr)
    (h : st ≠ 200) :
    fetch_data (Except.ok (st, body)) = Except.ok (Json.jobj []) ∧
    fetch_data (Except.error e) = Except.error e := by
  refine ⟨?_, rfl⟩
  simp [fetch_data, h]

/-- Witness for amended C6 at HTTP status 503. -/
theorem c6_witness :
    (503 : ℕ) ≠ 200 ∧
    (fetch_data (Except.ok (503, Json.jobj [])) = Except.ok (Json.jobj []) ∧
     fetch_data (Except.error NetErr.timeout) = Except.error NetErr.timeout) :=
  ⟨by decide, c6_non200_empty_transport_raises 503 (Json.jobj []) NetErr.timeout (by decide)⟩

/-- Claim C7 counterexample: on a 200 response whose body holds a non-empty
feeds sequence, the value returned is the whole decoded body, which is an
object and therefore not the feeds sequence itself. -/
theorem c7_counterexample :
    fetch_data (Except.ok (200, bodySample)) = Except.ok bodySample ∧
    (Except.ok bodySample : Except NetErr Json) ≠ Except.ok (Json.jarr feedsSample) := by
  refine ⟨rfl, fun h => ?_⟩
  injection h with h2
  exact Json.noConfusion h2

/-- Claim C7 as amended: on HTTP 200 with a non-empty feeds sequence in the
body, fetch_data returns the whole decoded body, which still carries that
sequence under its feeds key; the Normalizer extracts the sequence itself. -/
theorem c7_returns_whole_body (st : ℕ) (body : Json) (xs : List Json)
    (h1 : st = 200) (h2 : Json.getKey body "feeds" = some (Json.jarr xs))
    (h3 : xs ≠ []) :
    fetch_data (Except.ok (st, body)) = Except.ok body ∧
    Json.getKey body "feeds" = some (Json.jarr xs) := by
  subst h1
  have ht : truthy (Json.getKey body "feeds") = true := by
    rw [h2, truthy]
    simpa [List.isEmpty_iff] using h3
  refine ⟨?_, h2⟩
  simp [fetch_data, ht]

/-- Witness for amended C7 at a concrete 200 response. -/
theorem c7_witness :
    (200 : ℕ) = 200 ∧
    Json.getKey bodySample "feeds" = some (Json.jarr feedsSample) ∧
    feedsSample ≠ [] ∧
    (fetch_data (Except.ok (200, bodySample)) = Except.ok bodySample ∧
     Json.getKey bodySample "feeds" = some (Json.jarr feedsSample)) :=
  ⟨rfl, rfl, fun h => List.noConfusion h,
    c7_returns_whole_body 200 bodySample feedsSample rfl rfl (fun h => List.noConfusion h)⟩

/-- Claim C8: per-cell numeric coercion sends everything unparseable — the
empty string, null, an absent cell, non-numeric text — to missing, never to
zero, and a parsed zero survives into the output table as a value distinct
from missing. -/
theorem c8_unparseable_is_missing_not_zero (s : String) (h : parseFloat s = none) :
    to_numeric (some (Value.vstr s)) = none ∧
    to_numeric (some Value.vnull) = none ∧
    to_numeric none = none ∧
    parseFloat "" = none ∧
    to_numeric (some (Value.vstr s)) ≠ some 0 ∧
    (process_data payloadAll).2 = Except.ok [mkRow entryAll] ∧
    (mkRow entryAll).field1 = some 0 ∧
    (mkRow entryAll).field2 = none := by
  refine ⟨by simp [to_numeric, h], rfl, rfl, by rfl, by simp [to_numeric, h],
    by rfl, by rfl, by rfl⟩

/-- Witness for C8 at the unparseable string abc. -/
theorem c8_witness :
    parseFloat "abc" = none ∧
    (to_numeric (some (Value.vstr "abc")) = none ∧
     to_numeric (some Value.vnull) = none ∧
     to_numeric none = none ∧
     parseFloat "" = none ∧
     to_numeric (some (Value.vstr "abc")) ≠ some 0 ∧
     (process_data payloadAll).2 = Except.ok [mkRow entryAll] ∧
     (mkRow entryAll).field1 = some 0 ∧
     (mkRow entryAll).field2 = none) :=
  ⟨by rfl, c8_unparseable_is_missing_not_zero "abc" (by rfl)⟩

/-- Helper: the only error process_data can produce is the dropna KeyError,
carrying exactly the channel names that never became columns. -/
theorem error_is_dropna_keyerr (p : Payload) (l : KeyErr)
    (hl : (process_data p).2 = Except.error l) :
    l = missingChannels (feedsOf p) ∧
    (missingChannels (feedsOf p)).isEmpty = false := by
  unfold process_data at hl
  split_ifs at hl
  simp_all

/-- Claim C3: process_data never raises because of malformed cell contents:
its only error is the dropna KeyError, whose labels are channel names that
never appeared as columns (a property of the key schema, not of any cell
value), while an unparseable numeric or timestamp string coerces to missing
instead of erroring. -/
theorem c3_malformed_never_raises (p : Payload) (l : KeyErr) (s t : String)
    (hl : (process_data p).2 = Except.error l)
    (hs : parseFloat s = none) (ht : parseISO8601 t = none) :
    l ≠ [] ∧
    (∀ f ∈ l, f ∈ numeric_fields ∧ hasColumn (feedsOf p) f = false) ∧
    to_numeric (some (Value.vstr s)) = none ∧
    to_datetime (some (Value.vstr t)) = none := by
  obtain ⟨hml, hne⟩ := error_is_dropna_keyerr p l hl
  subst hml
  refine ⟨?_, ?_, by simp [to_numeric, hs], by simp [to_datetime, ht]⟩
  · intro hnil
    rw [hnil] at hne
    exact absurd hne (by simp)
  · intro f hf
    rw [missingChannels] at hf
    have := List.of_mem_filter hf
    exact ⟨List.mem_of_mem_filter hf, by simpa using this⟩

/-- Witness for C3 at the batch whose channels field2..field6 are absent,
with the unparseable strings abc and not-a-date. -/
theorem c3_witness :
    (process_data payloadPartial).2 =
      Except.error ["field2", "field3", "field4", "field5", "field6"] ∧
    parseFloat "abc" = none ∧
    parseISO8601 "not-a-date" = none ∧
    (["field2", "field3", "field4", "field5", "field6"] ≠ ([] : List String) ∧
     (∀ f ∈ ["field2", "field3", "field4", "field5", "field6"],
        f ∈ numeric_fields ∧ hasColumn (feedsOf payloadPartial) f = false) ∧
     to_numeric (some (Value.vstr "abc")) = none ∧
     to_datetime (some (Value.vstr "not-a-date")) = none) :=
  ⟨by rfl, by rfl, by rfl,
    c3_malformed_never_raises payloadPartial
      ["field2", "field3", "field4", "field5", "field6"] "abc" "not-a-date"
      (by rfl) (by rfl) (by rfl)⟩

/-- Helper: the channel cells of a built row are the coerced lookups of the
six channel names, in order. -/
theorem channelVals_mkRow (e : RawFeedEntry) :
    channelVals (mkRow e) = numeric_fields.map (fun f => to_numeric (e.lookup f)) := rfl

/-- Helper: a built row has every channel missing iff every channel lookup
coerces to missing. -/
theorem allChannelsMissing_mkRow (e : RawFeedEntry) :
    allChannelsMissing (mkRow e) = true ↔
      ∀ f ∈ numeric_fields, to_numeric (e.lookup f) = none := by
  rw [allChannelsMissing, channelVals_mkRow]
  simp [List.all_eq_true, Option.isNone_iff_eq_none]

/-- Helper: a built row survives the drop test iff some channel lookup
coerces to a value. -/
theorem not_allChannelsMissing_mkRow (e : RawFeedEntry) :
    (!allChannelsMissing (mkRow e)) = true ↔
      ∃ f ∈ numeric_fields, to_numeric (e.lookup f) ≠ none := by
  rw [Bool.not_eq_true', Bool.eq_false_iff, Ne, allChannelsMissing_mkRow]
  simp [not_forall]

/-- Claim C1 counterexample: a batch whose single entry has parsed values in
all six channels but an unparseable timestamp yields an empty table — the
row has at least one (indeed six) parsed channel values yet is not retained,
because the all-timestamps-invalid rule empties the batch first. -/
theorem c1_counterexample :
    (∃ f ∈ numeric_fields, to_numeric (entryBadTs.lookup f) ≠ none) ∧
    (process_data payloadBadTs).2 = Except.ok [] :=
  ⟨by decide, by rfl⟩

/-- Claim C1 as amended: for batches that pass timestamp validation (a
created_at column exists and at least one timestamp parses) and in which
every channel name appears in at least one entry (so dropna finds all its
subset labels), the output drops a row iff all six coerced channel values
are missing: no all-missing row is in the table, every entry with a parsed
channel value contributes its row, and every all-missing entry is dropped. -/
theorem c1_drop_iff_all_columns (p : Payload)
    (h1 : hasColumn (feedsOf p) "created_at" = true)
    (h2 : ∃ e ∈ feedsOf p, to_datetime (e.lookup "created_at") ≠ none)
    (h3 : ∀ f ∈ numeric_fields, hasColumn (feedsOf p) f = true) :
    (process_data p).2 = Except.ok (keptRows (feedsOf p)) ∧
    (∀ r ∈ keptRows (feedsOf p), allChannelsMissing r = false) ∧
    (∀ e ∈ feedsOf p,
      (∃ f ∈ numeric_fields, to_numeric (e.lookup f) ≠ none) →
        mkRow e ∈ keptRows (feedsOf p)) ∧
    (∀ e ∈ feedsOf p,
      (∀ f ∈ numeric_fields, to_numeric (e.lookup f) = none) →
        mkRow e ∉ keptRows (feedsOf p)) := by
  have hfe : (feedsOf p).isEmpty = false := by
    rw [List.isEmpty_eq_false]
    intro hnil
    obtain ⟨e, he, -⟩ := h2
    rw [hnil] at he
    cases he
  have hstamps : (createdAtColumn (feedsOf p)).all Option.isNone = false := by
    obtain ⟨e, he, hne⟩ := h2
    rw [Bool.eq_false_iff]
    intro hall
    rw [createdAtColumn, List.all_eq_true] at hall
    exact hne (Option.isNone_iff_eq_none.mp
      (hall _ (List.mem_map_of_mem _ he)))
  have hmiss : (missingChannels (feedsOf p)).isEmpty = true := by
    rw [missingChannels, List.isEmpty_iff, List.filter_eq_nil_iff]
    intro f hf
    simp [h3 f hf]
  refine ⟨?_, ?_, ?_, ?_⟩
  · cases hk : (keptRows (feedsOf p)).isEmpty <;>
      simp [process_data, hfe, h1, hstamps, hmiss, hk]
  · intro r hr
    rw [keptRows] at hr
    have hp := List.of_mem_filter hr
    rwa [Bool.not_eq_true'] at hp
  · intro e he hex
    rw [keptRows]
    exact List.mem_filter.mpr
      ⟨List.mem_map_of_mem _ he, (not_allChannelsMissing_mkRow e).mpr hex⟩
  · intro e he hall hmem
    rw [keptRows] at hmem
    have hp := (List.mem_filter.mp hmem).2
    rw [Bool.not_eq_true', (allChannelsMissing_mkRow e).mpr hall] at hp
    cases hp

/-- Witness for amended C1 at a concrete batch carrying every column whose
single row has a parsed value in channel 1. -/
theorem c1_witness :
    hasColumn (feedsOf payloadAll) "created_at" = true ∧
    (∃ e ∈ feedsOf payloadAll, to_datetime (e.lookup "created_at") ≠ none) ∧
    (∀ f ∈ numeric_fields, hasColumn (feedsOf payloadAll) f = true) ∧
    ((process_data payloadAll).2 = Except.ok (keptRows (feedsOf payloadAll)) ∧
     (∀ r ∈ keptRows (feedsOf payloadAll), allChannelsMissing r = false) ∧
     (∀ e ∈ feedsOf payloadAll,
       (∃ f ∈ numeric_fields, to_numeric (e.lookup f) ≠ none) →
         mkRow e ∈ keptRows (feedsOf payloadAll)) ∧
     (∀ e ∈ feedsOf payloadAll,
       (∀ f ∈ numeric_fields, to_numeric (e.lookup f) = none) →
         mkRow e ∉ keptRows (feedsOf payloadAll))) :=
  ⟨by decide, by decide, by decide,
    c1_drop_iff_all_columns payloadAll (by decide) (by decide) (by decide)⟩

end CrtDash
